import Mathlib

/-!
# The execution-request boundary of `exec-ffi.h`

A shallow embedding of `core/lib/tenderly_cffi/include/exec-ffi.h`: the
object-like macros that number the properties and the output slots, the
callback typedefs and the function declarations, together with the facts the
design document states about them.

The header declares the boundary functions without bodies.  Where a statement
is about what the functions do, the development below models them from the
design document and says so at the definition.
-/

namespace ExecFfi

/-! ## Object-like macros of the header -/

/-- A line `#define NAME value` of the header. -/
structure Define where
  name : String
  value : Nat
  deriving DecidableEq

/-! ### Block-context codes (header lines 12-20) -/

def TX_PROPERTY_BLOCK_NUMBER : Nat := 0x0
def TX_PROPERTY_BLOCK_COINBASE : Nat := 0x1
def TX_PROPERTY_BLOCK_GAS_LIMIT : Nat := 0x2
def TX_PROPERTY_BLOCK_TIMESTAMP : Nat := 0x3
def TX_PROPERTY_BLOCK_DIFFICULTY : Nat := 0x4
def TX_PROPERTY_BLOCK_BASE_FEE : Nat := 0x5
def TX_PROPERTY_BLOCK_PREVRANDAO : Nat := 0x6
def TX_PROPERTY_BLOCK_EXCESS_BLOB_GAS : Nat := 0x7
def TX_PROPERTY_BLOCK_PARENT_HASH : Nat := 0x8

/-! ### Transaction codes (header lines 22-34) -/

def TX_PROPERTY_TX_HASH : Nat := 0x100
def TX_PROPERTY_TX_FROM : Nat := 0x101
def TX_PROPERTY_TX_TO : Nat := 0x102
def TX_PROPERTY_TX_NONCE : Nat := 0x103
def TX_PROPERTY_TX_VALUE : Nat := 0x104
def TX_PROPERTY_TX_GAS_LIMIT : Nat := 0x105
def TX_PROPERTY_TX_GAS_PRICE : Nat := 0x106
def TX_PROPERTY_TX_FEE_CAP : Nat := 0x107
def TX_PROPERTY_TX_TIP : Nat := 0x108
def TX_PROPERTY_TX_MAX_FEE_PER_BLOB_GAS : Nat := 0x109
def TX_PROPERTY_TX_DATA : Nat := 0x10A
def TX_PROPERTY_TX_ACCESS_LIST : Nat := 0x10B
def TX_PROPERTY_TX_BLOB_HASHES : Nat := 0x10C

/-! ### Option codes (header lines 36-37) -/

def TX_PROPERTY_OPT_CHECK_NONCE : Nat := 0x200
def TX_PROPERTY_OPT_NO_BASE_FEE : Nat := 0x201

/-! ### Environment-callback codes (header lines 39-44) -/

def TX_PROPERTY_ENV_GET_NONCE : Nat := 0x300
def TX_PROPERTY_ENV_GET_BALANCE : Nat := 0x301
def TX_PROPERTY_ENV_GET_CODE_HASH : Nat := 0x302
def TX_PROPERTY_ENV_GET_CODE_LENGTH : Nat := 0x303
def TX_PROPERTY_ENV_GET_CODE : Nat := 0x304
def TX_PROPERTY_ENV_GET_STORAGE : Nat := 0x305

/-! ### Output slots (header lines 59-60) -/

def TX_OUTPUT_USED_GAS : Nat := 0
def TX_OUTPUT_RETURN_DATA : Nat := 1

/-- All valued `#define` lines of the header, in file order.  The include guard
`EXEC_FFI_H` carries no value and is not a code, so it is not listed. -/
def headerDefines : List Define :=
  [ ⟨"TX_PROPERTY_BLOCK_NUMBER", TX_PROPERTY_BLOCK_NUMBER⟩,
    ⟨"TX_PROPERTY_BLOCK_COINBASE", TX_PROPERTY_BLOCK_COINBASE⟩,
    ⟨"TX_PROPERTY_BLOCK_GAS_LIMIT", TX_PROPERTY_BLOCK_GAS_LIMIT⟩,
    ⟨"TX_PROPERTY_BLOCK_TIMESTAMP", TX_PROPERTY_BLOCK_TIMESTAMP⟩,
    ⟨"TX_PROPERTY_BLOCK_DIFFICULTY", TX_PROPERTY_BLOCK_DIFFICULTY⟩,
    ⟨"TX_PROPERTY_BLOCK_BASE_FEE", TX_PROPERTY_BLOCK_BASE_FEE⟩,
    ⟨"TX_PROPERTY_BLOCK_PREVRANDAO", TX_PROPERTY_BLOCK_PREVRANDAO⟩,
    ⟨"TX_PROPERTY_BLOCK_EXCESS_BLOB_GAS", TX_PROPERTY_BLOCK_EXCESS_BLOB_GAS⟩,
    ⟨"TX_PROPERTY_BLOCK_PARENT_HASH", TX_PROPERTY_BLOCK_PARENT_HASH⟩,
    ⟨"TX_PROPERTY_TX_HASH", TX_PROPERTY_TX_HASH⟩,
    ⟨"TX_PROPERTY_TX_FROM", TX_PROPERTY_TX_FROM⟩,
    ⟨"TX_PROPERTY_TX_TO", TX_PROPERTY_TX_TO⟩,
    ⟨"TX_PROPERTY_TX_NONCE", TX_PROPERTY_TX_NONCE⟩,
    ⟨"TX_PROPERTY_TX_VALUE", TX_PROPERTY_TX_VALUE⟩,
    ⟨"TX_PROPERTY_TX_GAS_LIMIT", TX_PROPERTY_TX_GAS_LIMIT⟩,
    ⟨"TX_PROPERTY_TX_GAS_PRICE", TX_PROPERTY_TX_GAS_PRICE⟩,
    ⟨"TX_PROPERTY_TX_FEE_CAP", TX_PROPERTY_TX_FEE_CAP⟩,
    ⟨"TX_PROPERTY_TX_TIP", TX_PROPERTY_TX_TIP⟩,
    ⟨"TX_PROPERTY_TX_MAX_FEE_PER_BLOB_GAS", TX_PROPERTY_TX_MAX_FEE_PER_BLOB_GAS⟩,
    ⟨"TX_PROPERTY_TX_DATA", TX_PROPERTY_TX_DATA⟩,
    ⟨"TX_PROPERTY_TX_ACCESS_LIST", TX_PROPERTY_TX_ACCESS_LIST⟩,
    ⟨"TX_PROPERTY_TX_BLOB_HASHES", TX_PROPERTY_TX_BLOB_HASHES⟩,
    ⟨"TX_PROPERTY_OPT_CHECK_NONCE", TX_PROPERTY_OPT_CHECK_NONCE⟩,
    ⟨"TX_PROPERTY_OPT_NO_BASE_FEE", TX_PROPERTY_OPT_NO_BASE_FEE⟩,
    ⟨"TX_PROPERTY_ENV_GET_NONCE", TX_PROPERTY_ENV_GET_NONCE⟩,
    ⟨"TX_PROPERTY_ENV_GET_BALANCE", TX_PROPERTY_ENV_GET_BALANCE⟩,
    ⟨"TX_PROPERTY_ENV_GET_CODE_HASH", TX_PROPERTY_ENV_GET_CODE_HASH⟩,
    ⟨"TX_PROPERTY_ENV_GET_CODE_LENGTH", TX_PROPERTY_ENV_GET_CODE_LENGTH⟩,
    ⟨"TX_PROPERTY_ENV_GET_CODE", TX_PROPERTY_ENV_GET_CODE⟩,
    ⟨"TX_PROPERTY_ENV_GET_STORAGE", TX_PROPERTY_ENV_GET_STORAGE⟩,
    ⟨"TX_OUTPUT_USED_GAS", TX_OUTPUT_USED_GAS⟩,
    ⟨"TX_OUTPUT_RETURN_DATA", TX_OUTPUT_RETURN_DATA⟩ ]

/-- Whether the macro name `s` starts with the characters of `p`. -/
def nameBeginsWith (p s : String) : Bool :=
  p.data.isPrefixOf s.data

/-- The `TX_PROPERTY_*` macros of the header, in file order. -/
def propertyDefines : List Define :=
  headerDefines.filter (fun d => nameBeginsWith "TX_PROPERTY_" d.name)

/-- The `TX_OUTPUT_*` macros of the header, in file order. -/
def outputDefines : List Define :=
  headerDefines.filter (fun d => nameBeginsWith "TX_OUTPUT_" d.name)

/-- The four property namespaces. -/
inductive PropertyNamespace where
  | block
  | transaction
  | options
  | environment
  deriving DecidableEq

/-- The four namespaces, listed. -/
def allNamespaces : List PropertyNamespace :=
  [.block, .transaction, .options, .environment]

/-- The namespace a property macro belongs to, read off the name it is given
in the header (`TX_PROPERTY_BLOCK_*`, `TX_PROPERTY_TX_*`, `TX_PROPERTY_OPT_*`,
`TX_PROPERTY_ENV_*`). -/
def namespaceOfName (s : String) : Option PropertyNamespace :=
  if nameBeginsWith "TX_PROPERTY_BLOCK_" s then some .block
  else if nameBeginsWith "TX_PROPERTY_TX_" s then some .transaction
  else if nameBeginsWith "TX_PROPERTY_OPT_" s then some .options
  else if nameBeginsWith "TX_PROPERTY_ENV_" s then some .environment
  else none

/-- The property macros of one namespace, in file order. -/
def definesOf (ns : PropertyNamespace) : List Define :=
  propertyDefines.filter (fun d => namespaceOfName d.name == some ns)

/-- The values a list of macros expands to. -/
def codesOf (ds : List Define) : List Nat :=
  ds.map (fun d => d.value)

/-- The value of a code once passed as the `uint64_t property` argument. -/
def asUInt64 (c : Nat) : Nat :=
  c % 2 ^ 64

/-! ## What the design document says about the codes -/

/-- Lowest code of the range the design document reserves for a namespace
(section 6: block 0x0-0xF, transaction 0x100-0x1FF, options 0x200-0x2FF,
environment callbacks 0x300-0x3FF). -/
def reservedLow : PropertyNamespace → Nat
  | .block => 0x0
  | .transaction => 0x100
  | .options => 0x200
  | .environment => 0x300

/-- Highest code of the range the design document reserves for a namespace. -/
def reservedHigh : PropertyNamespace → Nat
  | .block => 0xF
  | .transaction => 0x1FF
  | .options => 0x2FF
  | .environment => 0x3FF

/-- Code `c` lies in the reserved range of `ns`, bounds included. -/
def inReserved (ns : PropertyNamespace) (c : Nat) : Prop :=
  reservedLow ns ≤ c ∧ c ≤ reservedHigh ns

instance (ns : PropertyNamespace) (c : Nat) : Decidable (inReserved ns c) := by
  unfold inReserved; infer_instance

/-- Position of a namespace in the order block, transaction, options,
environment callbacks. -/
def namespaceIndex : PropertyNamespace → Nat
  | .block => 0
  | .transaction => 1
  | .options => 2
  | .environment => 3

/-- The data model's list of properties (section 3), namespace by namespace,
in the design document's words and order. -/
def dataModel : PropertyNamespace → List String
  | .block =>
      ["number", "coinbase address", "gas limit", "timestamp", "difficulty",
       "base fee", "randomness seed", "excess blob gas", "parent hash"]
  | .transaction =>
      ["hash", "from", "to", "nonce", "value", "gas limit", "gas price",
       "fee cap", "tip", "max fee per blob gas", "input data", "access list",
       "blob hashes"]
  | .options => ["enforce nonce check", "skip base-fee enforcement"]
  | .environment =>
      ["nonce", "balance", "code-hash", "code-length", "code", "storage"]

/-- The mandatory properties section 4.3 names (from, gas limit, nonce-check
policy), as entries of the data model. -/
def mandatoryInDataModel : List (PropertyNamespace × String) :=
  [(.transaction, "from"), (.transaction, "gas limit"),
   (.options, "enforce nonce check")]

/-- Which entry of the data model each property macro stands for. -/
def glossary : List (String × String) :=
  [ ("TX_PROPERTY_BLOCK_NUMBER", "number"),
    ("TX_PROPERTY_BLOCK_COINBASE", "coinbase address"),
    ("TX_PROPERTY_BLOCK_GAS_LIMIT", "gas limit"),
    ("TX_PROPERTY_BLOCK_TIMESTAMP", "timestamp"),
    ("TX_PROPERTY_BLOCK_DIFFICULTY", "difficulty"),
    ("TX_PROPERTY_BLOCK_BASE_FEE", "base fee"),
    ("TX_PROPERTY_BLOCK_PREVRANDAO", "randomness seed"),
    ("TX_PROPERTY_BLOCK_EXCESS_BLOB_GAS", "excess blob gas"),
    ("TX_PROPERTY_BLOCK_PARENT_HASH", "parent hash"),
    ("TX_PROPERTY_TX_HASH", "hash"),
    ("TX_PROPERTY_TX_FROM", "from"),
    ("TX_PROPERTY_TX_TO", "to"),
    ("TX_PROPERTY_TX_NONCE", "nonce"),
    ("TX_PROPERTY_TX_VALUE", "value"),
    ("TX_PROPERTY_TX_GAS_LIMIT", "gas limit"),
    ("TX_PROPERTY_TX_GAS_PRICE", "gas price"),
    ("TX_PROPERTY_TX_FEE_CAP", "fee cap"),
    ("TX_PROPERTY_TX_TIP", "tip"),
    ("TX_PROPERTY_TX_MAX_FEE_PER_BLOB_GAS", "max fee per blob gas"),
    ("TX_PROPERTY_TX_DATA", "input data"),
    ("TX_PROPERTY_TX_ACCESS_LIST", "access list"),
    ("TX_PROPERTY_TX_BLOB_HASHES", "blob hashes"),
    ("TX_PROPERTY_OPT_CHECK_NONCE", "enforce nonce check"),
    ("TX_PROPERTY_OPT_NO_BASE_FEE", "skip base-fee enforcement"),
    ("TX_PROPERTY_ENV_GET_NONCE", "nonce"),
    ("TX_PROPERTY_ENV_GET_BALANCE", "balance"),
    ("TX_PROPERTY_ENV_GET_CODE_HASH", "code-hash"),
    ("TX_PROPERTY_ENV_GET_CODE_LENGTH", "code-length"),
    ("TX_PROPERTY_ENV_GET_CODE", "code"),
    ("TX_PROPERTY_ENV_GET_STORAGE", "storage") ]

/-- The data-model entry a macro of the header stands for, if any. -/
def documentNameOf (s : String) : Option String :=
  glossary.lookup s

/-- The data-model entries the macros of one namespace stand for, in file
order. -/
def documentNamesOf (ns : PropertyNamespace) : List (Option String) :=
  (definesOf ns).map (fun d => documentNameOf d.name)

/-- The three value representations of the data model. -/
inductive Representation where
  | scalar
  | blob
  | callback
  deriving DecidableEq

/-- The output slots of the design document (section 6: gas-used is a scalar,
return-data is a blob), each with the macro that numbers it. -/
def documentOutputSlots : List (String × Representation) :=
  [("TX_OUTPUT_USED_GAS", .scalar), ("TX_OUTPUT_RETURN_DATA", .blob)]

/-! ## Declarations of the header -/

/-- The C types the header uses. -/
inductive CType where
  | void
  | uint8_t
  | uint64_t
  | named (tag : String)
  | pointer (target : CType)
  deriving DecidableEq

/-- A parameter of a declaration: its type and its name. -/
structure Param where
  ty : CType
  name : String
  deriving DecidableEq

/-- A function declaration, or a function-pointer typedef, of the header. -/
structure Declaration where
  name : String
  result : CType
  params : List Param
  deriving DecidableEq

/-- The type `TransactionExecutor *`. -/
def executorPointer : CType :=
  .pointer (.named "TransactionExecutor")

/-- The type `void *`. -/
def voidPointer : CType :=
  .pointer .void

/-- The type `uint8_t *`. -/
def bytePointer : CType :=
  .pointer .uint8_t

/-- The function declarations of the header (lines 9-10, 53-57, 62-63), in
file order. -/
def headerFunctions : List Declaration :=
  [ ⟨"exec_new_tx_executor", executorPointer, []⟩,
    ⟨"exec_free_tx_executor", .void, [⟨executorPointer, "tx"⟩]⟩,
    ⟨"exec_tx_set_property_uint64", .void,
      [⟨executorPointer, "tx"⟩, ⟨.uint64_t, "property"⟩, ⟨.uint64_t, "value"⟩]⟩,
    ⟨"exec_tx_set_property_data", .void,
      [⟨executorPointer, "tx"⟩, ⟨.uint64_t, "property"⟩, ⟨voidPointer, "data"⟩,
       ⟨.uint64_t, "size"⟩]⟩,
    ⟨"exec_tx_set_property_func", .void,
      [⟨executorPointer, "tx"⟩, ⟨.uint64_t, "property"⟩,
       ⟨voidPointer, "callback"⟩, ⟨voidPointer, "data"⟩]⟩,
    ⟨"exec_tx_execute", .void, [⟨executorPointer, "tx"⟩]⟩,
    ⟨"exec_tx_get_output_uint64", .uint64_t,
      [⟨executorPointer, "tx"⟩, ⟨.uint64_t, "output"⟩]⟩,
    ⟨"exec_tx_get_output_data", .uint64_t,
      [⟨executorPointer, "tx"⟩, ⟨.uint64_t, "output"⟩, ⟨voidPointer, "data"⟩]⟩ ]

/-- The callback typedefs of the header (lines 46-51), in file order. -/
def headerCallbacks : List Declaration :=
  [ ⟨"GetNonceCallback", .uint64_t, [⟨bytePointer, "addr"⟩, ⟨voidPointer, "data"⟩]⟩,
    ⟨"GetBalanceCallback", .void,
      [⟨bytePointer, "addr"⟩, ⟨bytePointer, "result"⟩, ⟨voidPointer, "data"⟩]⟩,
    ⟨"GetCodeHashCallback", .void,
      [⟨bytePointer, "addr"⟩, ⟨bytePointer, "result"⟩, ⟨voidPointer, "data"⟩]⟩,
    ⟨"GetCodeLengthCallback", .uint64_t,
      [⟨bytePointer, "addr"⟩, ⟨voidPointer, "data"⟩]⟩,
    ⟨"GetCodeCallback", .void,
      [⟨bytePointer, "addr"⟩, ⟨bytePointer, "result"⟩, ⟨voidPointer, "data"⟩]⟩,
    ⟨"GetStorageCallback", .void,
      [⟨bytePointer, "addr"⟩, ⟨bytePointer, "key"⟩, ⟨bytePointer, "result"⟩,
       ⟨voidPointer, "data"⟩]⟩ ]

/-! ## The external interface as the design document lists it -/

/-- The kinds of argument and result section 6 uses for the boundary
functions. -/
inductive BoundaryType where
  | handle
  | u64
  | bytes
  | buffer
  | pointer
  | nothing
  deriving DecidableEq

/-- A boundary function as section 6 lists it, with the symbol of the header
that provides it. -/
structure Operation where
  name : String
  symbol : String
  args : List BoundaryType
  result : BoundaryType
  deriving DecidableEq

/-- The boundary surface of section 6: handle lifecycle, configuration,
execution, results. -/
def documentOperations : List Operation :=
  [ ⟨"create", "exec_new_tx_executor", [], .handle⟩,
    ⟨"destroy", "exec_free_tx_executor", [.handle], .nothing⟩,
    ⟨"set_scalar", "exec_tx_set_property_uint64", [.handle, .u64, .u64], .nothing⟩,
    ⟨"set_blob", "exec_tx_set_property_data", [.handle, .u64, .bytes, .u64], .nothing⟩,
    ⟨"set_callback", "exec_tx_set_property_func",
      [.handle, .u64, .pointer, .pointer], .nothing⟩,
    ⟨"execute", "exec_tx_execute", [.handle], .nothing⟩,
    ⟨"get_output_scalar", "exec_tx_get_output_uint64", [.handle, .u64], .u64⟩,
    ⟨"get_output_blob", "exec_tx_get_output_data", [.handle, .u64, .buffer], .u64⟩ ]

/-- The C type that carries a boundary type: the handle is a pointer to the
executor, byte data, buffers and pointers are untyped pointers. -/
def cTypeOf : BoundaryType → CType
  | .handle => executorPointer
  | .u64 => .uint64_t
  | .bytes => voidPointer
  | .buffer => voidPointer
  | .pointer => voidPointer
  | .nothing => .void

/-- The shape of a declaration: name, result type, parameter types. -/
def shapeOf (d : Declaration) : String × CType × List CType :=
  (d.name, d.result, d.params.map (fun p => p.ty))

/-- The shape a boundary function of the design document has in C. -/
def documentShape (o : Operation) : String × CType × List CType :=
  (o.symbol, cTypeOf o.result, o.args.map cTypeOf)

/-- What a callback is handed: the account address, a storage key, the buffer
it writes its result to, the context pointer given at registration. -/
inductive CallbackArgument where
  | address
  | key
  | resultBuffer
  | context
  deriving DecidableEq

/-- A callback signature as section 6 gives it for a query kind: what it takes
and whether it returns a scalar (otherwise it returns nothing and writes the
result buffer). -/
structure CallbackSignature where
  typedefName : String
  takes : List CallbackArgument
  returnsScalar : Bool
  deriving DecidableEq

/-- The six callback signatures by query kind, with the context pointer of the
callback reference last. -/
def documentCallbacks : List CallbackSignature :=
  [ ⟨"GetNonceCallback", [.address, .context], true⟩,
    ⟨"GetBalanceCallback", [.address, .resultBuffer, .context], false⟩,
    ⟨"GetCodeHashCallback", [.address, .resultBuffer, .context], false⟩,
    ⟨"GetCodeLengthCallback", [.address, .context], true⟩,
    ⟨"GetCodeCallback", [.address, .resultBuffer, .context], false⟩,
    ⟨"GetStorageCallback", [.address, .key, .resultBuffer, .context], false⟩ ]

/-- The parameter of the header that carries a callback argument. -/
def paramOf : CallbackArgument → Param
  | .address => ⟨bytePointer, "addr"⟩
  | .key => ⟨bytePointer, "key"⟩
  | .resultBuffer => ⟨bytePointer, "result"⟩
  | .context => ⟨voidPointer, "data"⟩

/-- The typedef a callback signature of the design document amounts to. -/
def typedefOf (c : CallbackSignature) : Declaration :=
  ⟨c.typedefName, if c.returnsScalar then .uint64_t else .void, c.takes.map paramOf⟩

/-- Whether a declaration has a parameter called `key`. -/
def takesKey (d : Declaration) : Bool :=
  d.params.any (fun p => p.name == "key")

/-! ## The functions behind the boundary

The header declares the functions; their bodies are not part of it.  The
definitions of this section follow the design document.  The C functions return
`void` (or a bare `uint64_t`), so the error channel of section 7 is modelled as
a second component of the result, next to the executor the call leaves behind.
-/

/-- Modelled from the spec: the error kinds of section 7.  The bodies of the
boundary functions, which raise them, are missing from the header. -/
inductive ProtocolError where
  | InvalidProperty
  | MissingMandatoryProperty
  | MissingEnvironmentCallback
  | ExecutionFailure
  | NoResult
  deriving DecidableEq

/-- Modelled from the spec: the protocol-level errors of section 7, the ones
that abort a run (`ExecutionFailure` is an outcome, `NoResult` a read error). -/
def ProtocolError.isProtocolLevel : ProtocolError → Bool
  | .InvalidProperty => true
  | .MissingMandatoryProperty => true
  | .MissingEnvironmentCallback => true
  | .ExecutionFailure => false
  | .NoResult => false

/-- Modelled from the spec: the six query kinds of the State-Access Bridge
(section 4.2), with the address and, for storage, the key they carry. -/
inductive StateQuery where
  | getNonce (addr : List Nat)
  | getBalance (addr : List Nat)
  | getCodeHash (addr : List Nat)
  | getCodeLength (addr : List Nat)
  | getCode (addr : List Nat)
  | getStorage (addr : List Nat) (key : List Nat)

/-- The property code under which the callback of a query kind is registered
(header lines 39-44). -/
def StateQuery.code : StateQuery → Nat
  | .getNonce _ => TX_PROPERTY_ENV_GET_NONCE
  | .getBalance _ => TX_PROPERTY_ENV_GET_BALANCE
  | .getCodeHash _ => TX_PROPERTY_ENV_GET_CODE_HASH
  | .getCodeLength _ => TX_PROPERTY_ENV_GET_CODE_LENGTH
  | .getCode _ => TX_PROPERTY_ENV_GET_CODE
  | .getStorage _ _ => TX_PROPERTY_ENV_GET_STORAGE

/-- Modelled from the spec: what a callback hands back, a 64-bit scalar or the
bytes it wrote to the result buffer (section 4.2). -/
inductive Answer where
  | scalar (value : Nat)
  | buffer (bytes : List Nat)
  deriving DecidableEq

/-- Modelled from the spec: a host function behind a callback reference.  It is
called with the context pointer given at registration and the query. -/
abbrev HostFunction := Nat → StateQuery → Answer

/-- Modelled from the spec: the three value representations of a property
(section 3): a 64-bit scalar, the engine's copy of a byte blob, a callback
reference (function pointer plus context pointer). -/
inductive PropertyValue where
  | scalar (value : Nat)
  | blob (bytes : List Nat)
  | callback (fn : HostFunction) (context : Nat)

/-- The representation a value has. -/
def PropertyValue.representation : PropertyValue → Representation
  | .scalar _ => .scalar
  | .blob _ => .blob
  | .callback _ _ => .callback

/-- Modelled from the spec: the results of a run (section 3, output slots). -/
structure Outputs where
  usedGas : Nat
  returnData : List Nat
  deriving DecidableEq

/-- Modelled from the spec: the executor behind the handle (section 3): one
property store with at most one value per code, and one result set, present
only after a run that completed.  The header leaves the struct incomplete. -/
structure TransactionExecutor where
  properties : List (Nat × PropertyValue)
  outputs : Option Outputs

/-- Modelled from the spec: a fresh executor, nothing set and no results. -/
def exec_new_tx_executor : TransactionExecutor :=
  ⟨[], none⟩

/-- Modelled from the spec: the current value of a property, if it is set. -/
def getProperty (ps : List (Nat × PropertyValue)) (code : Nat) : Option PropertyValue :=
  ps.lookup code

/-- Modelled from the spec: setting a property overwrites the value the code
had (section 3, invariant). -/
def putProperty (ps : List (Nat × PropertyValue)) (code : Nat) (v : PropertyValue) :
    List (Nat × PropertyValue) :=
  (code, v) :: ps.filter (fun p => p.1 != code)

/-- Modelled from the spec: the central validation of section 4.1 and 9.  A
code is accepted when it is one the header defines and the representation is
the one the static table `required` asks of it.  The table's representation
column is not in the header and is a parameter. -/
def validProperty (required : Nat → Representation) (code : Nat) (r : Representation) :
    Bool :=
  (codesOf propertyDefines).contains code && required code == r

/-- Modelled from the spec: the common body of the three setters, validating
at the call (the eager policy section 9 recommends).  A rejected call reports
`InvalidProperty` and leaves the executor as it was. -/
def setProperty (required : Nat → Representation) (tx : TransactionExecutor) (code : Nat)
    (v : PropertyValue) : TransactionExecutor × Option ProtocolError :=
  if validProperty required code v.representation then
    ({ tx with properties := putProperty tx.properties code v }, none)
  else
    (tx, some .InvalidProperty)

/-- Modelled from the spec: `set_scalar(handle, code, value)` of section 4.1;
the header has the declaration only (line 53). -/
def exec_tx_set_property_uint64 (required : Nat → Representation) (tx : TransactionExecutor)
    (property value : Nat) : TransactionExecutor × Option ProtocolError :=
  setProperty required tx property (.scalar value)

/-- Modelled from the spec: `set_blob(handle, code, data, length)` of section
4.1, which copies `size` bytes of the caller's buffer; the header has the
declaration only (line 54). -/
def exec_tx_set_property_data (required : Nat → Representation) (tx : TransactionExecutor)
    (property : Nat) (data : List Nat) (size : Nat) :
    TransactionExecutor × Option ProtocolError :=
  setProperty required tx property (.blob (data.take size))

/-- Modelled from the spec: `set_callback(handle, code, function, context)` of
section 4.1; the header has the declaration only (line 55). -/
def exec_tx_set_property_func (required : Nat → Representation) (tx : TransactionExecutor)
    (property : Nat) (callback : HostFunction) (data : Nat) :
    TransactionExecutor × Option ProtocolError :=
  setProperty required tx property (.callback callback data)

/-- Modelled from the spec: the interpreter as the Execution Controller sees it
(section 4.3): it either finishes with gas used and return data, or asks a
state query and goes on from the answer.  The interpreter is an external
collaborator. -/
inductive Run where
  | finish (usedGas : Nat) (returnData : List Nat)
  | ask (q : StateQuery) (next : Answer → Run)

/-- Modelled from the spec: the State-Access Bridge (section 4.2).  A query is
forwarded to the callback registered for its kind, with the context pointer
unchanged; a kind with no callback registered fails the execution. -/
def bridge (ps : List (Nat × PropertyValue)) (q : StateQuery) : Except ProtocolError Answer :=
  match getProperty ps q.code with
  | some (.callback fn context) => .ok (fn context q)
  | _ => .error .MissingEnvironmentCallback

/-- Modelled from the spec: running the interpreter against the bridge (section
4.3, steps 3 and 4). -/
def drive (ps : List (Nat × PropertyValue)) : Run → Except ProtocolError Outputs
  | .finish usedGas returnData => .ok ⟨usedGas, returnData⟩
  | .ask q next =>
    match bridge ps q with
    | .ok a => drive ps (next a)
    | .error e => .error e

/-- Modelled from the spec: the run reaches a query whose callback was never
registered, the queries before it having been answered by the host. -/
inductive Blocked (ps : List (Nat × PropertyValue)) : Run → Prop where
  | here (q : StateQuery) (next : Answer → Run) (e : ProtocolError)
      (h : bridge ps q = .error e) : Blocked ps (.ask q next)
  | later (q : StateQuery) (next : Answer → Run) (a : Answer)
      (h : bridge ps q = .ok a) (rest : Blocked ps (next a)) : Blocked ps (.ask q next)

/-- Modelled from the spec: the mandatory properties of section 4.3, step 1
(from, gas limit, nonce-check policy). -/
def mandatoryCodes : List Nat :=
  [TX_PROPERTY_TX_FROM, TX_PROPERTY_TX_GAS_LIMIT, TX_PROPERTY_OPT_CHECK_NONCE]

/-- Modelled from the spec: every mandatory property is set. -/
def mandatoryPresent (ps : List (Nat × PropertyValue)) : Bool :=
  mandatoryCodes.all (fun c => (getProperty ps c).isSome)

/-- Modelled from the spec: `execute(handle)` of section 4.3.  Prior outputs
are discarded, the mandatory properties are checked, the interpreter is run
against the bridge, and its results are stored; a protocol error leaves no
output.  The header has the declaration only (line 57). -/
def exec_tx_execute (interpreter : List (Nat × PropertyValue) → Run)
    (tx : TransactionExecutor) : TransactionExecutor × Option ProtocolError :=
  if mandatoryPresent tx.properties then
    match drive tx.properties (interpreter tx.properties) with
    | .ok out => ({ tx with outputs := some out }, none)
    | .error e => ({ tx with outputs := none }, some e)
  else
    ({ tx with outputs := none }, some .MissingMandatoryProperty)

/-- Modelled from the spec: `get_scalar(slot)` of section 4.4; the header has
the declaration only (line 62). -/
def exec_tx_get_output_uint64 (tx : TransactionExecutor) (output : Nat) :
    Except ProtocolError Nat :=
  match tx.outputs with
  | some out => if output = TX_OUTPUT_USED_GAS then .ok out.usedGas else .error .NoResult
  | none => .error .NoResult

/-- Modelled from the spec: `get_blob(slot, buffer)` of section 4.4, giving the
bytes written to the buffer; the header has the declaration only (line 63). -/
def exec_tx_get_output_data (tx : TransactionExecutor) (output : Nat) :
    Except ProtocolError (List Nat) :=
  match tx.outputs with
  | some out => if output = TX_OUTPUT_RETURN_DATA then .ok out.returnData else .error .NoResult
  | none => .error .NoResult

/-! ## Sample inputs -/

/-- A sample representation table: callbacks for the environment codes,
scalars for everything below them. -/
def sampleRequired (code : Nat) : Representation :=
  if 0x300 ≤ code then .callback else .scalar

/-- A sample interpreter: it asks for the nonce of one account and then
finishes with 21000 gas used and no return data. -/
def sampleInterpreter (_ : List (Nat × PropertyValue)) : Run :=
  .ask (.getNonce [0xAA]) (fun _ => .finish 21000 [])

/-- A sample executor with the three mandatory properties set, no callback
registered, and the outputs of an earlier run still in place. -/
def sampleConfigured : TransactionExecutor :=
  ⟨[(TX_PROPERTY_TX_FROM, .scalar 7), (TX_PROPERTY_TX_GAS_LIMIT, .scalar 30000),
    (TX_PROPERTY_OPT_CHECK_NONCE, .scalar 1)], some ⟨5, [1, 2]⟩⟩

/-- A sample executor with nothing set and the outputs of an earlier run still
in place. -/
def sampleUnconfigured : TransactionExecutor :=
  ⟨[], some ⟨5, [1, 2]⟩⟩

/-! ## Facts about the codes of the header -/

/-- C1: every property code of the header lies in the reserved range of the
namespace its name puts it in: block codes in 0x0..0xF, transaction codes in
0x100..0x1FF, option codes in 0x200..0x2FF, environment-callback codes in
0x300..0x3FF, bounds included. -/
theorem property_codes_within_reserved_ranges (d : Define) (hd : d ∈ propertyDefines) :
    (namespaceOfName d.name = some .block ∧ 0x0 ≤ d.value ∧ d.value ≤ 0xF) ∨
    (namespaceOfName d.name = some .transaction ∧ 0x100 ≤ d.value ∧ d.value ≤ 0x1FF) ∨
    (namespaceOfName d.name = some .options ∧ 0x200 ≤ d.value ∧ d.value ≤ 0x2FF) ∨
    (namespaceOfName d.name = some .environment ∧ 0x300 ≤ d.value ∧ d.value ≤ 0x3FF) := by
  revert d
  decide

/-- C1 at `TX_PROPERTY_ENV_GET_STORAGE`. -/
theorem property_codes_within_reserved_ranges_witness :
    (⟨"TX_PROPERTY_ENV_GET_STORAGE", 0x305⟩ : Define) ∈ propertyDefines ∧
    ((namespaceOfName "TX_PROPERTY_ENV_GET_STORAGE" = some .block ∧ 0x0 ≤ 0x305 ∧ 0x305 ≤ 0xF) ∨
     (namespaceOfName "TX_PROPERTY_ENV_GET_STORAGE" = some .transaction ∧
        0x100 ≤ 0x305 ∧ 0x305 ≤ 0x1FF) ∨
     (namespaceOfName "TX_PROPERTY_ENV_GET_STORAGE" = some .options ∧
        0x200 ≤ 0x305 ∧ 0x305 ≤ 0x2FF) ∨
     (namespaceOfName "TX_PROPERTY_ENV_GET_STORAGE" = some .environment ∧
        0x300 ≤ 0x305 ∧ 0x305 ≤ 0x3FF)) :=
  ⟨by decide,
   property_codes_within_reserved_ranges ⟨"TX_PROPERTY_ENV_GET_STORAGE", 0x305⟩ (by decide)⟩

/-- C2: the header defines 30 property codes, pairwise distinct as 64-bit
values and under pairwise distinct names, the four reserved ranges do not
overlap, and each defined code lies in the reserved range of exactly one
namespace, the one its name puts it in. -/
theorem property_codes_distinct_namespaces_disjoint :
    propertyDefines.length = 30 ∧
    ((codesOf propertyDefines).map asUInt64).Nodup ∧
    (propertyDefines.map (fun d => d.name)).Nodup ∧
    (∀ c : Nat, ∀ ns₁ ns₂ : PropertyNamespace,
      inReserved ns₁ c → inReserved ns₂ c → ns₁ = ns₂) ∧
    (∀ d ∈ propertyDefines,
      allNamespaces.filter (fun ns => decide (inReserved ns d.value)) =
        (namespaceOfName d.name).toList ∧ (namespaceOfName d.name).isSome = true) := by
  refine ⟨by decide, by decide, by decide, ?_, by decide⟩
  intro c ns₁ ns₂ h₁ h₂
  cases ns₁ <;> cases ns₂ <;> first
    | rfl
    | (exfalso; simp only [inReserved, reservedLow, reservedHigh] at h₁ h₂; omega)

/-- C2 at code 0x108 (`TX_PROPERTY_TX_TIP`): it is in the transaction range,
so a namespace whose range holds it is the transaction namespace. -/
theorem property_codes_distinct_namespaces_disjoint_witness :
    inReserved .transaction 0x108 ∧ PropertyNamespace.transaction = .transaction ∧
    (⟨"TX_PROPERTY_TX_TIP", 0x108⟩ : Define) ∈ propertyDefines ∧
    allNamespaces.filter (fun ns => decide (inReserved ns 0x108)) = [.transaction] :=
  ⟨by decide,
   property_codes_distinct_namespaces_disjoint.2.2.2.1 0x108 .transaction .transaction
     (by decide) (by decide),
   by decide,
   (property_codes_distinct_namespaces_disjoint.2.2.2.2 ⟨"TX_PROPERTY_TX_TIP", 0x108⟩
     (by decide)).1⟩

/-- C6: the header defines exactly two output slots, `TX_OUTPUT_USED_GAS` and
`TX_OUTPUT_RETURN_DATA`, with distinct identifiers; they are the two slots of
the design document (gas-used, a scalar, and return-data, a blob), and every
other valued macro of the header is a property code. -/
theorem output_slots_exactly_two :
    outputDefines = [⟨"TX_OUTPUT_USED_GAS", TX_OUTPUT_USED_GAS⟩,
                     ⟨"TX_OUTPUT_RETURN_DATA", TX_OUTPUT_RETURN_DATA⟩] ∧
    outputDefines.length = 2 ∧
    ((codesOf outputDefines).map asUInt64).Nodup ∧
    TX_OUTPUT_USED_GAS ≠ TX_OUTPUT_RETURN_DATA ∧
    outputDefines.map (fun d => d.name) = documentOutputSlots.map (fun s => s.1) ∧
    documentOutputSlots.map (fun s => s.2) = [.scalar, .blob] ∧
    headerDefines = propertyDefines ++ outputDefines := by
  decide

/-- C7: the property codes of the header are the data model's list, entry for
entry and with nothing else: nine block codes, thirteen transaction codes, two
option codes and six environment-callback codes, standing in file order for
the entries the design document names; the mandatory properties from, gas
limit and nonce-check policy each have a code. -/
theorem property_codes_match_data_model :
    documentNamesOf .block = (dataModel .block).map some ∧
    documentNamesOf .transaction = (dataModel .transaction).map some ∧
    documentNamesOf .options = (dataModel .options).map some ∧
    documentNamesOf .environment = (dataModel .environment).map some ∧
    (definesOf .block).length = 9 ∧
    (definesOf .transaction).length = 13 ∧
    (definesOf .options).length = 2 ∧
    (definesOf .environment).length = 6 ∧
    (dataModel .block).Nodup ∧ (dataModel .transaction).Nodup ∧
    (dataModel .options).Nodup ∧ (dataModel .environment).Nodup ∧
    propertyDefines =
      definesOf .block ++ definesOf .transaction ++ definesOf .options ++
        definesOf .environment ∧
    (mandatoryInDataModel.map (fun m =>
        ((definesOf m.1).filter (fun d => documentNameOf d.name == some m.2)).map
          (fun d => d.name))) =
      [["TX_PROPERTY_TX_FROM"], ["TX_PROPERTY_TX_GAS_LIMIT"], ["TX_PROPERTY_OPT_CHECK_NONCE"]] := by
  decide

/-- C9: in each namespace the codes count upward from the base of the
namespace without a gap, in the order of the header: block codes are 0x0..0x8,
transaction codes 0x100..0x10C, option codes 0x200..0x201, environment-callback
codes 0x300..0x305, and the output slots are 0..1. -/
theorem codes_contiguous_from_base :
    codesOf (definesOf .block) = [0x0, 0x1, 0x2, 0x3, 0x4, 0x5, 0x6, 0x7, 0x8] ∧
    codesOf (definesOf .transaction) =
      [0x100, 0x101, 0x102, 0x103, 0x104, 0x105, 0x106, 0x107, 0x108, 0x109, 0x10A,
       0x10B, 0x10C] ∧
    codesOf (definesOf .options) = [0x200, 0x201] ∧
    codesOf (definesOf .environment) = [0x300, 0x301, 0x302, 0x303, 0x304, 0x305] ∧
    codesOf outputDefines = [0, 1] ∧
    codesOf (definesOf .block) = List.range' (reservedLow .block) 9 ∧
    codesOf (definesOf .transaction) = List.range' (reservedLow .transaction) 13 ∧
    codesOf (definesOf .options) = List.range' (reservedLow .options) 2 ∧
    codesOf (definesOf .environment) = List.range' (reservedLow .environment) 6 ∧
    codesOf outputDefines = List.range' 0 2 := by
  decide

/-- C10: for every property code of the header, the code divided by 0x100 is
the position of its namespace (0 block, 1 transaction, 2 options, 3
environment callbacks), and the remainder modulo 0x100 is at most 0xF. -/
theorem namespace_is_code_div_256 (d : Define) (hd : d ∈ propertyDefines) :
    (namespaceOfName d.name = some .block ∧ d.value / 0x100 = 0 ∨
     namespaceOfName d.name = some .transaction ∧ d.value / 0x100 = 1 ∨
     namespaceOfName d.name = some .options ∧ d.value / 0x100 = 2 ∨
     namespaceOfName d.name = some .environment ∧ d.value / 0x100 = 3) ∧
    (namespaceOfName d.name).map namespaceIndex = some (d.value / 0x100) ∧
    d.value % 0x100 ≤ 0xF := by
  revert d
  decide

/-- C10 at `TX_PROPERTY_TX_BLOB_HASHES`, the code with the largest
remainder. -/
theorem namespace_is_code_div_256_witness :
    (⟨"TX_PROPERTY_TX_BLOB_HASHES", 0x10C⟩ : Define) ∈ propertyDefines ∧
    (namespaceOfName "TX_PROPERTY_TX_BLOB_HASHES").map namespaceIndex = some (0x10C / 0x100) ∧
    0x10C % 0x100 ≤ 0xF :=
  ⟨by decide,
   (namespace_is_code_div_256 ⟨"TX_PROPERTY_TX_BLOB_HASHES", 0x10C⟩ (by decide)).2⟩

/-! ## Facts about the declarations of the header -/

/-- C4: the eight function declarations of the header have the shapes section
6 lists: create takes nothing and returns the handle, destroy takes the handle,
set_scalar takes (handle, u64, u64), set_blob takes (handle, u64, data pointer,
u64), set_callback takes (handle, u64, pointer, pointer), execute takes the
handle alone and returns nothing, get_output_scalar takes (handle, u64) and
returns u64, get_output_blob takes (handle, u64, buffer) and returns u64. -/
theorem boundary_functions_have_document_shapes :
    headerFunctions.map shapeOf = documentOperations.map documentShape ∧
    headerFunctions.length = 8 ∧
    headerFunctions.map shapeOf =
      [ ("exec_new_tx_executor", executorPointer, []),
        ("exec_free_tx_executor", .void, [executorPointer]),
        ("exec_tx_set_property_uint64", .void, [executorPointer, .uint64_t, .uint64_t]),
        ("exec_tx_set_property_data", .void,
          [executorPointer, .uint64_t, voidPointer, .uint64_t]),
        ("exec_tx_set_property_func", .void,
          [executorPointer, .uint64_t, voidPointer, voidPointer]),
        ("exec_tx_execute", .void, [executorPointer]),
        ("exec_tx_get_output_uint64", .uint64_t, [executorPointer, .uint64_t]),
        ("exec_tx_get_output_data", .uint64_t, [executorPointer, .uint64_t, voidPointer]) ] := by
  decide

/-- C5: the six callback typedefs of the header are the signatures of the
design document: the nonce and code-length callbacks take (address, context)
and return a 64-bit scalar; the balance, code-hash and code callbacks take
(address, result buffer, context) and return nothing; the storage callback
takes (address, key, result buffer, context), returns nothing and is the only
one with a key; each has the context pointer `void *data` as last parameter. -/
theorem callback_typedefs_have_document_signatures :
    headerCallbacks = documentCallbacks.map typedefOf ∧
    headerCallbacks.length = 6 ∧
    headerCallbacks.map (fun d => d.params.getLast?) =
      List.replicate 6 (some ⟨voidPointer, "data"⟩) ∧
    headerCallbacks.map (fun d => d.params.head?) =
      List.replicate 6 (some ⟨bytePointer, "addr"⟩) ∧
    (headerCallbacks.filter takesKey).map (fun d => d.name) = ["GetStorageCallback"] ∧
    (headerCallbacks.filter (fun d => d.result == .uint64_t)).map (fun d => d.name) =
      ["GetNonceCallback", "GetCodeLengthCallback"] ∧
    (headerCallbacks.filter (fun d => d.result == .void)).map (fun d => d.name) =
      ["GetBalanceCallback", "GetCodeHashCallback", "GetCodeCallback", "GetStorageCallback"] := by
  decide

/-! ## Facts about the functions behind the boundary -/

/-- A code the header does not define fails the central validation, whatever
the representation table says. -/
theorem validProperty_undefined (required : Nat → Representation) (code : Nat)
    (r : Representation) (h : code ∉ codesOf propertyDefines) :
    validProperty required code r = false := by
  unfold validProperty
  have hc : (codesOf propertyDefines).contains code = false := by
    cases hb : (codesOf propertyDefines).contains code with
    | false => rfl
    | true => exact absurd (by simpa using hb) h
  rw [hc, Bool.false_and]

/-- The bridge fails in one way only. -/
theorem bridge_error (ps : List (Nat × PropertyValue)) (q : StateQuery) (e : ProtocolError)
    (h : bridge ps q = .error e) : e = .MissingEnvironmentCallback := by
  unfold bridge at h
  split at h
  · cases h
  · cases h; rfl

/-- A run fails exactly when it reaches a query with no callback registered,
and then with `MissingEnvironmentCallback`. -/
theorem drive_error_iff (ps : List (Nat × PropertyValue)) (r : Run) (e : ProtocolError) :
    drive ps r = .error e ↔ e = .MissingEnvironmentCallback ∧ Blocked ps r := by
  induction r with
  | finish g d =>
    constructor
    · intro h; simp [drive] at h
    · rintro ⟨_, hb⟩; cases hb
  | ask q next ih =>
    constructor
    · intro h
      unfold drive at h
      cases hq : bridge ps q with
      | error e₁ =>
        rw [hq] at h
        simp only [Except.error.injEq] at h
        subst h
        exact ⟨bridge_error ps q e₁ hq, Blocked.here q next e₁ hq⟩
      | ok a =>
        rw [hq] at h
        have := (ih a).mp h
        exact ⟨this.1, Blocked.later q next a hq this.2⟩
    · rintro ⟨he, hb⟩
      unfold drive
      cases hb with
      | here _ _ e₁ h₁ =>
        rw [h₁]
        rw [bridge_error ps q e₁ h₁, he]
      | later _ _ a h₁ rest =>
        rw [h₁]
        exact (ih a).mpr ⟨he, rest⟩

/-- C3: a code that is not one of the header's property codes is rejected by
each of the three setters with `InvalidProperty`, and the executor is left as
it was: the call is neither accepted nor ignored. -/
theorem undefined_code_is_invalid_property (required : Nat → Representation)
    (tx : TransactionExecutor) (property : Nat) (h : property ∉ codesOf propertyDefines)
    (value : Nat) (data : List Nat) (size : Nat) (callback : HostFunction) (context : Nat) :
    exec_tx_set_property_uint64 required tx property value = (tx, some .InvalidProperty) ∧
    exec_tx_set_property_data required tx property data size = (tx, some .InvalidProperty) ∧
    exec_tx_set_property_func required tx property callback context =
      (tx, some .InvalidProperty) := by
  simp [exec_tx_set_property_uint64, exec_tx_set_property_data, exec_tx_set_property_func,
    setProperty, validProperty_undefined required property _ h]

/-- C3 at the unused environment code 0x306 on a fresh executor, and at the
code 0x10, which lies outside the four ranges, on a configured one. -/
theorem undefined_code_is_invalid_property_witness :
    (0x306 ∉ codesOf propertyDefines ∧
     exec_tx_set_property_uint64 sampleRequired exec_new_tx_executor 0x306 1 =
       (exec_new_tx_executor, some .InvalidProperty) ∧
     exec_tx_set_property_data sampleRequired exec_new_tx_executor 0x306 [1, 2, 3] 2 =
       (exec_new_tx_executor, some .InvalidProperty) ∧
     exec_tx_set_property_func sampleRequired exec_new_tx_executor 0x306
       (fun _ _ => .scalar 0) 0 = (exec_new_tx_executor, some .InvalidProperty)) ∧
    (0x10 ∉ codesOf propertyDefines ∧
     exec_tx_set_property_uint64 sampleRequired sampleConfigured 0x10 1 =
       (sampleConfigured, some .InvalidProperty) ∧
     exec_tx_set_property_data sampleRequired sampleConfigured 0x10 [1, 2, 3] 2 =
       (sampleConfigured, some .InvalidProperty) ∧
     exec_tx_set_property_func sampleRequired sampleConfigured 0x10
       (fun _ _ => .scalar 0) 0 = (sampleConfigured, some .InvalidProperty)) :=
  ⟨⟨by decide,
    undefined_code_is_invalid_property sampleRequired exec_new_tx_executor 0x306 (by decide)
      1 [1, 2, 3] 2 (fun _ _ => .scalar 0) 0⟩,
   ⟨by decide,
    undefined_code_is_invalid_property sampleRequired sampleConfigured 0x10 (by decide)
      1 [1, 2, 3] 2 (fun _ _ => .scalar 0) 0⟩⟩

/-- C8: each protocol-level error comes back from the call that meets it.  A
set call (each of the three setters is `setProperty` at a value of its own
representation) that fails validation reports `InvalidProperty` itself and
leaves the executor untouched, and a set call reports no other error.  An
execute call on an executor with a mandatory property unset reports
`MissingMandatoryProperty`; one whose run reaches a query with no callback
registered reports `MissingEnvironmentCallback`.  Whenever execute reports an
error it is one of these two, and the executor it leaves has no output: every
slot reads `NoResult`. -/
theorem protocol_errors_surface_at_the_call (required : Nat → Representation)
    (interpreter : List (Nat × PropertyValue) → Run) (tx : TransactionExecutor) :
    (∀ code v, validProperty required code v.representation = false →
      setProperty required tx code v = (tx, some .InvalidProperty)) ∧
    (∀ code v e, (setProperty required tx code v).2 = some e →
      e = .InvalidProperty ∧ validProperty required code v.representation = false) ∧
    (mandatoryPresent tx.properties = false →
      exec_tx_execute interpreter tx =
        ({ tx with outputs := none }, some .MissingMandatoryProperty)) ∧
    (mandatoryPresent tx.properties = true →
      Blocked tx.properties (interpreter tx.properties) →
      exec_tx_execute interpreter tx =
        ({ tx with outputs := none }, some .MissingEnvironmentCallback)) ∧
    (∀ e, (exec_tx_execute interpreter tx).2 = some e →
      (e = .MissingMandatoryProperty ∨ e = .MissingEnvironmentCallback) ∧
      e.isProtocolLevel = true ∧
      (exec_tx_execute interpreter tx).1.outputs = none ∧
      ∀ slot,
        exec_tx_get_output_uint64 (exec_tx_execute interpreter tx).1 slot = .error .NoResult ∧
        exec_tx_get_output_data (exec_tx_execute interpreter tx).1 slot = .error .NoResult) ∧
    (∀ property value data size callback context,
      exec_tx_set_property_uint64 required tx property value =
        setProperty required tx property (.scalar value) ∧
      exec_tx_set_property_data required tx property data size =
        setProperty required tx property (.blob (data.take size)) ∧
      exec_tx_set_property_func required tx property callback context =
        setProperty required tx property (.callback callback context)) := by
  refine ⟨?_, ?_, ?_, ?_, ?_, fun _ _ _ _ _ _ => ⟨rfl, rfl, rfl⟩⟩
  · intro code v hv
    simp [setProperty, hv]
  · intro code v e he
    unfold setProperty at he
    cases hv : validProperty required code v.representation with
    | true => rw [hv] at he; simp at he
    | false =>
      rw [hv] at he
      simp at he
      exact ⟨he.symm, rfl⟩
  · intro hm
    simp [exec_tx_execute, hm]
  · intro hm hb
    have hd := (drive_error_iff tx.properties (interpreter tx.properties)
      .MissingEnvironmentCallback).mpr ⟨rfl, hb⟩
    simp [exec_tx_execute, hm, hd]
  · intro e he
    unfold exec_tx_execute at he ⊢
    cases hm : mandatoryPresent tx.properties with
    | false =>
      rw [hm] at he
      simp at he
      subst he
      simp [ProtocolError.isProtocolLevel, exec_tx_get_output_uint64, exec_tx_get_output_data]
    | true =>
      rw [hm] at he
      simp only [if_true] at he ⊢
      cases hd : drive tx.properties (interpreter tx.properties) with
      | ok out => rw [hd] at he; simp at he
      | error e₁ =>
        rw [hd] at he
        simp at he
        subst he
        have hk := ((drive_error_iff _ _ _).mp hd).1
        subst hk
        simp [ProtocolError.isProtocolLevel, exec_tx_get_output_uint64,
          exec_tx_get_output_data]

/-- C8 on the sample executors: an unused code is refused at the set call, an
unconfigured executor fails at execute with `MissingMandatoryProperty`, a
configured one with no nonce callback fails at execute with
`MissingEnvironmentCallback`, and the outputs of the earlier run are gone. -/
theorem protocol_errors_surface_at_the_call_witness :
    setProperty sampleRequired sampleConfigured 0x306 (.scalar 1) =
      (sampleConfigured, some .InvalidProperty) ∧
    exec_tx_execute sampleInterpreter sampleUnconfigured =
      ({ sampleUnconfigured with outputs := none }, some .MissingMandatoryProperty) ∧
    exec_tx_execute sampleInterpreter sampleConfigured =
      ({ sampleConfigured with outputs := none }, some .MissingEnvironmentCallback) ∧
    exec_tx_get_output_uint64 (exec_tx_execute sampleInterpreter sampleConfigured).1
      TX_OUTPUT_USED_GAS = .error .NoResult :=
  ⟨(protocol_errors_surface_at_the_call sampleRequired sampleInterpreter sampleConfigured).1
     0x306 (.scalar 1) (by decide),
   (protocol_errors_surface_at_the_call sampleRequired sampleInterpreter
     sampleUnconfigured).2.2.1 (by decide),
   (protocol_errors_surface_at_the_call sampleRequired sampleInterpreter
     sampleConfigured).2.2.2.1 (by decide)
     (Blocked.here _ _ .MissingEnvironmentCallback rfl),
   ((protocol_errors_surface_at_the_call sampleRequired sampleInterpreter
     sampleConfigured).2.2.2.2.1 .MissingEnvironmentCallback rfl).2.2.2
     TX_OUTPUT_USED_GAS |>.1⟩

end ExecFfi
